import Mathlib

/-!
Verification of the Cafenet inventory ledger and undo engine
(src/Cafenet.py, class CafenetApp).

The embedding models the sqlite database state (tables products, sales_log,
undo_stack) and the ledger operations add_product, sell_item, delete_item,
undo_last and _delete_sales_record as pure functions on that state.
Machine details that the claims do not touch (the tkinter widget layer,
string parsing of the entry fields, timestamps, the logs audit table, the
backup thread) are elided; the caller-supplied confirmation dialogs
(messagebox.askyesno) are modelled as boolean parameters, following the spec
"caller must have confirmed" phrasing prescribes.
-/

namespace Cafenet

/-- One row of the products table (init_db, Cafenet.py lines 51-60).
SQLite INTEGER columns are modelled as Int; id is the AUTOINCREMENT
primary key. -/
structure Product where
  id : Nat
  name : String
  qty : Int
  buy_price : Int
  sell_price : Int
  sold_qty : Int
deriving Repr, DecidableEq

/-- One row of the sales_log table (init_db, lines 70-81).  product_id is a
nullable foreign key with ON DELETE SET NULL, hence Option Nat. -/
structure SaleRecord where
  id : Nat
  product_id : Option Nat
  qty : Int
  price_buy : Int
  price_sell : Int
  profit : Int
deriving Repr, DecidableEq

/-- The JSON payload of one undo_stack row, one constructor per action kind
pushed by the code: ADD (add_product line 558), SELL (sell_item lines
629-635) and DELETE (delete_item lines 658-661).  The code stores the
action string and the payload separately but every push keeps them in sync,
so the embedding fuses them into one inductive.  Optional fields mirror the
payload.get defaulting in undo_last (lines 683-687). -/
inductive UndoPayload where
  | addP (product_id : Nat)
  | sellP (product_id : Nat) (qty : Int) (prev_qty : Option Int)
      (prev_sold : Option Int) (sales_log_id : Option Nat)
  | deleteP (product_id : Nat) (name : String) (qty : Int) (buy : Int)
      (sell : Int) (sold : Int)
deriving Repr, DecidableEq

/-- One row of the undo_stack table (init_db, lines 83-90). -/
structure UndoEntry where
  id : Nat
  payload : UndoPayload
deriving Repr, DecidableEq

/-- The persistent store: the three tables the ledger reads back, plus the
next AUTOINCREMENT rowid of each (sqlite never reuses them).  The undo list
is kept in id-ascending order, mirroring ORDER BY id; pushes append. -/
structure DBState where
  products : List Product
  sales : List SaleRecord
  undo : List UndoEntry
  next_product_id : Nat
  next_sale_id : Nat
  next_undo_id : Nat
deriving Repr, DecidableEq

/-- SELECT of a product row by id (db_query with WHERE id=?, first row). -/
def productRow (st : DBState) (pid : Nat) : Option Product :=
  st.products.find? (fun p => p.id == pid)

/-- The row transformer of UPDATE products SET qty=?, sold_qty=? WHERE id=?:
rows matching the id get the new quantities, all others are untouched. -/
def updQS (pid : Nat) (q s : Int) (p : Product) : Product :=
  if p.id == pid then { p with qty := q, sold_qty := s } else p

/-- UPDATE products SET qty=?, sold_qty=? WHERE id=? (lines 615 and 690). -/
def setQtySold (pid : Nat) (q s : Int) (l : List Product) : List Product :=
  l.map (updQS pid q s)

/-- _push_undo (lines 371-386): INSERT INTO undo_stack in a transaction of
its own; lastrowid is the fresh AUTOINCREMENT id. -/
def pushUndo (st : DBState) (pl : UndoPayload) : DBState :=
  { st with undo := st.undo ++ [⟨st.next_undo_id, pl⟩],
            next_undo_id := st.next_undo_id + 1 }

/-- DELETE FROM products WHERE id=? together with the ON DELETE SET NULL
referential action of sales_log.product_id (schema line 79). -/
def deleteProductRow (st : DBState) (pid : Nat) : DBState :=
  { st with
    products := st.products.filter (fun p => p.id != pid),
    sales := st.sales.map (fun s =>
      if s.product_id == some pid then { s with product_id := none } else s) }

/-- Well-formedness of a store state as sqlite maintains it: every rowid is
below the next AUTOINCREMENT value of the table, rowids are unique, and the
undo rows are listed in strictly increasing id order (so the last element
is the ORDER BY id DESC LIMIT 1 row). -/
def WF (st : DBState) : Prop :=
  (∀ p ∈ st.products, p.id < st.next_product_id) ∧
  (st.products.map Product.id).Nodup ∧
  (∀ s ∈ st.sales, s.id < st.next_sale_id) ∧
  (st.sales.map SaleRecord.id).Nodup ∧
  (∀ u ∈ st.undo, u.id < st.next_undo_id) ∧
  st.undo.Pairwise (fun a b => a.id < b.id)

instance (st : DBState) : Decidable (WF st) := by
  unfold WF; infer_instance

/-- Result of add_product, distinguishing the validation-failure return
(lines 531-541) from a successful insert reporting the new rowid. -/
inductive AddOutcome where
  | validationError
  | added (pid : Nat)
deriving Repr, DecidableEq

/-- add_product (lines 525-562): validates that the name is non-empty,
inserts the product with sold_qty defaulting to 0 in one transaction (lines
545-550), then pushes the ADD undo record in a separate transaction.  The
entry-field reads belong to the elided widget layer: name is the stripped
text of line 526 and the qty/price parameters are the integers parsed at
lines 536-538. -/
def add_product (st : DBState) (name : String) (qi bi si : Int) :
    AddOutcome × DBState :=
  if name = "" then (AddOutcome.validationError, st)
  else
    let pid := st.next_product_id
    let st1 := { st with
      products := st.products ++ [⟨pid, name, qi, bi, si, 0⟩],
      next_product_id := pid + 1 }
    (AddOutcome.added pid, pushUndo st1 (UndoPayload.addP pid))

/-- Result of sell_item.  notFound is the bare `return` at lines 594-595;
outOfStock the qty <= 0 branch (lines 599-601); declined the refused
askyesno cap confirmation (lines 603-605); sold carries the effective
quantity written. -/
inductive SellOutcome where
  | notFound
  | outOfStock
  | declined
  | sold (eff : Int)
deriving Repr, DecidableEq

/-- Whether the sell_item code path for an outcome surfaces a dialog to the
user: the out-of-stock branch calls messagebox.showinfo (line 600) and the
cap branch calls messagebox.askyesno (line 604), but the product-not-found
branch at lines 594-595 is a bare return with no messagebox and no log. -/
def sellReportsToCaller : SellOutcome → Bool
  | SellOutcome.notFound => false
  | SellOutcome.outOfStock => true
  | SellOutcome.declined => true
  | SellOutcome.sold _ => false

/-- The single sell transaction (lines 612-622): UPDATE of the product row
and INSERT of the sales_log row committed together; profit is
(sell_price - buy_price) * qty sold (line 617). -/
def sellTxn (st : DBState) (pid : Nat) (p : Product) (eff : Int) : DBState :=
  { st with
    products := setQtySold pid (p.qty - eff) (p.sold_qty + eff) st.products,
    sales := st.sales ++
      [⟨st.next_sale_id, some pid, eff, p.buy_price, p.sell_price,
        (p.sell_price - p.buy_price) * eff⟩],
    next_sale_id := st.next_sale_id + 1 }

/-- The successful tail of sell_item: the sell transaction followed by the
separate SELL undo push (lines 629-635), whose payload snapshots the
previous qty, previous sold_qty and the new sales_log rowid. -/
def doSell (st : DBState) (pid : Nat) (p : Product) (eff : Int) :
    SellOutcome × DBState :=
  let st1 := sellTxn st pid p eff
  (SellOutcome.sold eff,
   pushUndo st1 (UndoPayload.sellP pid eff (some p.qty) (some p.sold_qty)
     (some st.next_sale_id)))

/-- sell_item (lines 570-640).  A requested quantity below 1 is coerced to 1
(lines 587-588); a missing product row returns silently (594-595); zero or
negative stock aborts (599-601); a request above stock either caps to the
stock after the caller confirms, or aborts (603-606).  confirm_cap is the
askyesno answer supplied by the excluded UI collaborator. -/
def sell_item (st : DBState) (pid : Nat) (qty_to_sell : Int)
    (confirm_cap : Bool) : SellOutcome × DBState :=
  let q := if qty_to_sell < 1 then 1 else qty_to_sell
  match productRow st pid with
  | none => (SellOutcome.notFound, st)
  | some p =>
    if p.qty ≤ 0 then (SellOutcome.outOfStock, st)
    else if p.qty < q then
      if confirm_cap then doSell st pid p p.qty
      else (SellOutcome.declined, st)
    else doSell st pid p q

/-- Result of delete_item: missing row returns silently (lines 650-651),
the askyesno confirmation may be declined (654-655). -/
inductive DeleteOutcome where
  | notFound
  | cancelled
  | deleted
deriving Repr, DecidableEq

/-- delete_item (lines 642-666): reads the row, pushes the DELETE undo
record carrying a full field snapshot BEFORE deleting (lines 658-661), then
deletes the product row in a separate transaction (line 663). -/
def delete_item (st : DBState) (pid : Nat) (confirm : Bool) :
    DeleteOutcome × DBState :=
  match productRow st pid with
  | none => (DeleteOutcome.notFound, st)
  | some p =>
    if confirm then
      let st1 := pushUndo st
        (UndoPayload.deleteP pid p.name p.qty p.buy_price p.sell_price p.sold_qty)
      (DeleteOutcome.deleted, deleteProductRow st1 pid)
    else (DeleteOutcome.cancelled, st)

/-- The undo-of-DELETE restore (lines 713-732): INSERT with the original id;
sqlite raises on a primary-key collision, in which case the fallback INSERT
without id assigns the next AUTOINCREMENT rowid.  Inserting an explicit id
at or above the sequence advances it. -/
def restoreDeleted (st : DBState) (pid : Nat) (name : String)
    (qty buy sell sold : Int) : DBState :=
  if st.products.any (fun r => r.id == pid) then
    { st with
      products := st.products ++ [⟨st.next_product_id, name, qty, buy, sell, sold⟩],
      next_product_id := st.next_product_id + 1 }
  else
    { st with
      products := st.products ++ [⟨pid, name, qty, buy, sell, sold⟩],
      next_product_id := max st.next_product_id (pid + 1) }

/-- Result of undo_last: the empty-stack information box (lines 670-672)
versus a performed compensation. -/
inductive UndoOutcome where
  | emptyStack
  | undone
deriving Repr, DecidableEq

/-- undo_last (lines 668-738).  _pop_undo_db (388-419) reads the highest-id
undo row and deletes it; then the compensation runs per action kind:
ADD deletes the added product (679); SELL restores the snapshotted qty and
sold_qty when present, otherwise adds the quantity back best-effort
(689-693), and then deletes the sales_log row with the saved id (697) — in
sqlite a DELETE whose WHERE clause matches no row succeeds deleting zero
rows, so the except-branch fallback at lines 698-710 is unreachable in a
fault-free run and does not appear here; DELETE re-inserts the snapshot via
the collision-aware restore (717-728). -/
def undo_last (st : DBState) : UndoOutcome × DBState :=
  match st.undo.getLast? with
  | none => (UndoOutcome.emptyStack, st)
  | some e =>
    let st1 : DBState := { st with undo := st.undo.dropLast }
    match e.payload with
    | UndoPayload.addP pid =>
        (UndoOutcome.undone, deleteProductRow st1 pid)
    | UndoPayload.sellP pid q prevq prevs slid =>
        let st2 :=
          match prevq, prevs with
          | some pq, some ps =>
              { st1 with products := setQtySold pid pq ps st1.products }
          | _, _ =>
              { st1 with products := st1.products.map (fun r =>
                  if r.id == pid then
                    { r with qty := r.qty + q, sold_qty := max (r.sold_qty - q) 0 }
                  else r) }
        let st3 :=
          match slid with
          | some sid =>
              { st2 with sales := st2.sales.filter (fun s => s.id != sid) }
          | none => st2
        (UndoOutcome.undone, st3)
    | UndoPayload.deleteP pid name qty buy sell sold =>
        (UndoOutcome.undone, restoreDeleted st1 pid name qty buy sell sold)

/-- _delete_sales_record (lines 791-801): after the askyesno confirmation,
DELETE FROM sales_log WHERE id=? and nothing else — no undo push, no
product change. -/
def delete_sales_record (st : DBState) (sid : Nat) (confirm : Bool) : DBState :=
  if confirm then
    { st with sales := st.sales.filter (fun s => s.id != sid) }
  else st

/-- The lazy zero-quantity cleanup of refresh_list (lines 500-509): every
listed product row with qty <= 0 is deleted from the table, without any
undo record.  It belongs to the display path, not to the ledger commands
(spec section 4.1), and is modelled separately from them. -/
def refresh_gc (st : DBState) : DBState :=
  st.products.foldl
    (fun acc p => if p.qty ≤ 0 then deleteProductRow acc p.id else acc) st

/-- Fault model for undo_last when the compensation fails: _pop_undo_db has
already committed the DELETE of the undo row in its own transaction (lines
391-401) before the try block starts, and the except handler (735-737) only
logs and shows an error, leaving that commit in place.  The observable
state is therefore the popped stack with products and sales untouched. -/
def undo_last_compensation_fails (st : DBState) : DBState :=
  match st.undo.getLast? with
  | none => st
  | some _ => { st with undo := st.undo.dropLast }

/-- Fault model for add_product when _push_undo fails: the product INSERT
commits on its own connection (lines 545-550) first, and _push_undo
swallows its own exception (385-386), so add_product still reports success
while no undo row exists. -/
def add_product_push_undo_fails (st : DBState) (name : String)
    (qi bi si : Int) : DBState :=
  if name = "" then st
  else
    { st with
      products := st.products ++ [⟨st.next_product_id, name, qi, bi, si, 0⟩],
      next_product_id := st.next_product_id + 1 }

/-! ### Helper lemmas about the list-level table operations -/

theorem updQS_id (pid : Nat) (a b : Int) (p : Product) :
    (updQS pid a b p).id = p.id := by
  unfold updQS
  split <;> rfl

theorem updQS_updQS (pid : Nat) (a b c d : Int) (p : Product) :
    updQS pid a b (updQS pid c d p) = updQS pid a b p := by
  by_cases hh : (p.id == pid) = true
  · simp [updQS, hh]
  · simp [updQS, hh]

theorem updQS_eq_self (pid : Nat) (a b : Int) (p : Product)
    (h : p.id = pid → p.qty = a ∧ p.sold_qty = b) : updQS pid a b p = p := by
  by_cases hh : (p.id == pid) = true
  · have hid : p.id = pid := by simpa using hh
    obtain ⟨h1, h2⟩ := h hid
    cases p
    simp_all [updQS]
  · simp [updQS, hh]

theorem setQtySold_collapse (pid : Nat) (a b c d : Int) (l : List Product) :
    setQtySold pid a b (setQtySold pid c d l) = setQtySold pid a b l := by
  unfold setQtySold
  rw [List.map_map]
  exact List.map_congr_left (fun p _ => updQS_updQS pid a b c d p)

theorem setQtySold_eq_self (pid : Nat) (a b : Int) (l : List Product)
    (h : ∀ r ∈ l, r.id = pid → r.qty = a ∧ r.sold_qty = b) :
    setQtySold pid a b l = l := by
  unfold setQtySold
  induction l with
  | nil => rfl
  | cons p t ih =>
    rw [List.map_cons, updQS_eq_self pid a b p (h p (by simp)),
      ih (fun r hr hrid => h r (by simp [hr]) hrid)]

theorem find?_setQtySold (pid : Nat) (a b : Int) (l : List Product) :
    (setQtySold pid a b l).find? (fun r => r.id == pid)
      = (l.find? (fun r => r.id == pid)).map
          (fun r => { r with qty := a, sold_qty := b }) := by
  unfold setQtySold
  induction l with
  | nil => rfl
  | cons p t ih =>
    rw [List.map_cons]
    by_cases hh : (p.id == pid) = true
    · have hL : ((updQS pid a b p) :: List.map (updQS pid a b) t).find?
          (fun r => r.id == pid) = some (updQS pid a b p) :=
        List.find?_cons_of_pos _ (by rw [updQS_id]; exact hh)
      have hR : (p :: t).find? (fun r => r.id == pid) = some p :=
        List.find?_cons_of_pos _ hh
      rw [hL, hR]
      simp [updQS, hh]
    · have hL : ((updQS pid a b p) :: List.map (updQS pid a b) t).find?
          (fun r => r.id == pid)
          = (List.map (updQS pid a b) t).find? (fun r => r.id == pid) :=
        List.find?_cons_of_neg _ (by rw [updQS_id]; simpa using hh)
      have hR : (p :: t).find? (fun r => r.id == pid)
          = t.find? (fun r => r.id == pid) :=
        List.find?_cons_of_neg _ (by simpa using hh)
      rw [hL, hR]
      exact ih

theorem qty_of_mem_setQtySold (pid : Nat) (a b : Int) (l : List Product)
    (r : Product) (hr : r ∈ setQtySold pid a b l) : r.qty = a ∨ r ∈ l := by
  simp only [setQtySold, List.mem_map] at hr
  obtain ⟨x, hx, hxr⟩ := hr
  by_cases hh : (x.id == pid) = true
  · left; rw [← hxr]; simp [updQS, hh]
  · right; rw [← hxr]; simp [updQS, hh, hx]

theorem unique_row_of_nodup (pid : Nat) (l : List Product)
    (hnd : (l.map Product.id).Nodup) (p : Product)
    (hp : l.find? (fun r => r.id == pid) = some p) :
    ∀ r ∈ l, r.id = pid → r = p := by
  intro r hr hrid
  have hpmem := List.mem_of_find?_eq_some hp
  have hpid : p.id = pid := by simpa using List.find?_some hp
  exact List.inj_on_of_nodup_map hnd hr hpmem (by rw [hrid, hpid])

theorem unique_qty_sold_of_nodup (pid : Nat) (l : List Product)
    (hnd : (l.map Product.id).Nodup) (p : Product)
    (hp : l.find? (fun r => r.id == pid) = some p) :
    ∀ r ∈ l, r.id = pid → r.qty = p.qty ∧ r.sold_qty = p.sold_qty := by
  intro r hr hrid
  rw [unique_row_of_nodup pid l hnd p hp r hr hrid]
  exact ⟨rfl, rfl⟩

theorem sales_filter_ne_eq_self (l : List SaleRecord) (sid : Nat)
    (h : ∀ s ∈ l, s.id ≠ sid) : l.filter (fun s => s.id != sid) = l :=
  List.filter_eq_self.mpr (fun s hs => by simpa using h s hs)

theorem products_filter_ne_eq_self (l : List Product) (pid : Nat)
    (h : ∀ p ∈ l, p.id ≠ pid) : l.filter (fun p => p.id != pid) = l :=
  List.filter_eq_self.mpr (fun p hp => by simpa using h p hp)

theorem any_id_filter_ne (l : List Product) (pid : Nat) :
    ((l.filter (fun p => p.id != pid)).any (fun r => r.id == pid)) = false := by
  rw [List.any_eq_false]
  intro r hr
  have hne := (List.mem_filter.mp hr).2
  simp only [bne_iff_ne, ne_eq] at hne
  simpa using hne

theorem sales_filter_ne_eq_erase (l : List SaleRecord)
    (hnd : (l.map SaleRecord.id).Nodup) (s : SaleRecord) (hs : s ∈ l) :
    l.filter (fun r => r.id != s.id) = l.erase s := by
  induction l with
  | nil => cases hs
  | cons a t ih =>
    rw [List.map_cons, List.nodup_cons] at hnd
    obtain ⟨ha, ht⟩ := hnd
    by_cases hsa : a = s
    · rw [hsa] at ha ⊢
      rw [List.filter_cons, List.erase_cons_head]
      have hself : (s.id != s.id) = false := by simp
      rw [hself]
      simp only [Bool.false_eq_true, if_false]
      exact sales_filter_ne_eq_self t s.id
        (fun r hr hrid => ha (hrid ▸ List.mem_map_of_mem SaleRecord.id hr))
    · have hst : s ∈ t := by
        rcases List.mem_cons.mp hs with h | h
        · exact absurd h.symm hsa
        · exact h
      have haid : a.id ≠ s.id := by
        intro hEq
        exact ha (hEq ▸ List.mem_map_of_mem SaleRecord.id hst)
      have hane : ¬ ((a == s) = true) := by
        intro hbe
        exact hsa (eq_of_beq hbe)
      rw [List.filter_cons]
      have hbne : (a.id != s.id) = true := by simpa using haid
      rw [hbne]
      simp only [if_true]
      rw [List.erase_cons_tail (by simpa using hane), ih ht hst]

/-! ### Reduction lemmas: one per control-flow branch of the source -/

theorem sell_item_eq_doSell (st : DBState) (pid : Nat) (q : Int) (c : Bool)
    (p : Product) (hp : productRow st pid = some p) (h1 : 1 ≤ q)
    (hq : q ≤ p.qty) : sell_item st pid q c = doSell st pid p q := by
  have h1' : ¬ q < 1 := by omega
  have h0 : ¬ p.qty ≤ 0 := by omega
  have hc : ¬ p.qty < q := by omega
  simp only [sell_item, hp, if_neg h1', if_neg h0, if_neg hc]

theorem undo_last_of_sell_top (st : DBState) (uid pid : Nat) (q pq ps : Int)
    (sid : Nat)
    (h : st.undo.getLast? =
      some ⟨uid, UndoPayload.sellP pid q (some pq) (some ps) (some sid)⟩) :
    undo_last st = (UndoOutcome.undone,
      { st with undo := st.undo.dropLast,
                products := setQtySold pid pq ps st.products,
                sales := st.sales.filter (fun s => s.id != sid) }) := by
  unfold undo_last
  rw [h]

theorem undo_last_of_add_top (st : DBState) (uid pid : Nat)
    (h : st.undo.getLast? = some ⟨uid, UndoPayload.addP pid⟩) :
    undo_last st = (UndoOutcome.undone,
      deleteProductRow { st with undo := st.undo.dropLast } pid) := by
  unfold undo_last
  rw [h]

theorem undo_last_of_delete_top (st : DBState) (uid pid : Nat) (name : String)
    (qty buy sell sold : Int)
    (h : st.undo.getLast? =
      some ⟨uid, UndoPayload.deleteP pid name qty buy sell sold⟩) :
    undo_last st = (UndoOutcome.undone,
      restoreDeleted { st with undo := st.undo.dropLast } pid name qty buy sell sold) := by
  unfold undo_last
  rw [h]

/-! ### Claim theorems -/

/-- Claim C1: for every SellProduct(p, q) where product p exists with current
quantity Q at least q and q at least 1, the post-state has quantity Q - q and
sold-quantity pre-sold + q, exactly one new SaleRecord is inserted
snapshotting the buy and sell price of the product with profit q * (sellPrice -
buyPrice), and an immediately following UndoLast restores quantity and
sold-quantity to exactly Q and pre-sold and removes exactly that one
SaleRecord. -/
theorem C1_sell_then_undo_exact (st : DBState) (pid : Nat) (q : Int)
    (c : Bool) (p : Product) (hWF : WF st) (hp : productRow st pid = some p)
    (h1 : 1 ≤ q) (hq : q ≤ p.qty) :
    productRow (sell_item st pid q c).2 pid
        = some { p with qty := p.qty - q, sold_qty := p.sold_qty + q } ∧
    (sell_item st pid q c).2.sales
        = st.sales ++ [⟨st.next_sale_id, some pid, q, p.buy_price,
            p.sell_price, (p.sell_price - p.buy_price) * q⟩] ∧
    (undo_last (sell_item st pid q c).2).2.products = st.products ∧
    (undo_last (sell_item st pid q c).2).2.sales = st.sales := by
  obtain ⟨hpb, hpnd, hsb, hsnd, hub, hupw⟩ := hWF
  rw [sell_item_eq_doSell st pid q c p hp h1 hq]
  have hfind : st.products.find? (fun r => r.id == pid) = some p := hp
  have hprod2 : (doSell st pid p q).2.products
      = setQtySold pid (p.qty - q) (p.sold_qty + q) st.products := rfl
  have hsales2 : (doSell st pid p q).2.sales
      = st.sales ++ [⟨st.next_sale_id, some pid, q, p.buy_price, p.sell_price,
          (p.sell_price - p.buy_price) * q⟩] := rfl
  have hundo2 : (doSell st pid p q).2.undo
      = st.undo ++ [⟨st.next_undo_id, UndoPayload.sellP pid q (some p.qty)
          (some p.sold_qty) (some st.next_sale_id)⟩] := rfl
  have hlast : (doSell st pid p q).2.undo.getLast?
      = some ⟨st.next_undo_id, UndoPayload.sellP pid q (some p.qty)
          (some p.sold_qty) (some st.next_sale_id)⟩ := by
    rw [hundo2]
    exact List.getLast?_concat _
  have hred := undo_last_of_sell_top (doSell st pid p q).2 st.next_undo_id
    pid q p.qty p.sold_qty st.next_sale_id hlast
  refine ⟨?_, hsales2, ?_, ?_⟩
  · unfold productRow
    rw [hprod2]
    unfold setQtySold
    rw [← setQtySold.eq_def pid (p.qty - q) (p.sold_qty + q) st.products]
    rw [find?_setQtySold, hfind]
    rfl
  · rw [hred]
    show setQtySold pid p.qty p.sold_qty (doSell st pid p q).2.products
        = st.products
    rw [hprod2, setQtySold_collapse]
    exact setQtySold_eq_self pid p.qty p.sold_qty st.products
      (unique_qty_sold_of_nodup pid st.products hpnd p hfind)
  · rw [hred]
    show (doSell st pid p q).2.sales.filter
        (fun s => s.id != st.next_sale_id) = st.sales
    rw [hsales2, List.filter_append]
    have hone : ([⟨st.next_sale_id, some pid, q, p.buy_price, p.sell_price,
        (p.sell_price - p.buy_price) * q⟩] : List SaleRecord).filter
          (fun s => s.id != st.next_sale_id) = [] := by
      simp
    rw [hone, List.append_nil]
    exact sales_filter_ne_eq_self st.sales st.next_sale_id
      (fun s hs => by have := hsb s hs; omega)

/-- Witness for C1: a store holding Coffee with quantity 10 and no prior
sales, selling 3. -/
theorem C1_witness :
    (WF ⟨[⟨1, "Coffee", 10, 1000, 1500, 0⟩], [], [], 2, 1, 1⟩ ∧
     productRow ⟨[⟨1, "Coffee", 10, 1000, 1500, 0⟩], [], [], 2, 1, 1⟩ 1
        = some ⟨1, "Coffee", 10, 1000, 1500, 0⟩ ∧
     (1 : Int) ≤ 3 ∧ (3 : Int) ≤ (10 : Int)) ∧
    (productRow (sell_item ⟨[⟨1, "Coffee", 10, 1000, 1500, 0⟩], [], [], 2, 1, 1⟩
          1 3 false).2 1 = some ⟨1, "Coffee", 7, 1000, 1500, 3⟩ ∧
     (sell_item ⟨[⟨1, "Coffee", 10, 1000, 1500, 0⟩], [], [], 2, 1, 1⟩
          1 3 false).2.sales = [⟨1, some 1, 3, 1000, 1500, 1500⟩] ∧
     (undo_last (sell_item ⟨[⟨1, "Coffee", 10, 1000, 1500, 0⟩], [], [], 2, 1, 1⟩
          1 3 false).2).2.products = [⟨1, "Coffee", 10, 1000, 1500, 0⟩] ∧
     (undo_last (sell_item ⟨[⟨1, "Coffee", 10, 1000, 1500, 0⟩], [], [], 2, 1, 1⟩
          1 3 false).2).2.sales = []) :=
  ⟨⟨by decide, by decide, by decide, by decide⟩,
    C1_sell_then_undo_exact ⟨[⟨1, "Coffee", 10, 1000, 1500, 0⟩], [], [], 2, 1, 1⟩
      1 3 false ⟨1, "Coffee", 10, 1000, 1500, 0⟩ (by decide) (by decide)
      (by decide) (by decide)⟩

/-- Claim C8: for every AddProduct followed immediately by UndoLast, the set
of Product rows in the store equals the set before the AddProduct
(round-trip identity); stated as equality of the products table. -/
theorem C8_add_then_undo_roundtrip (st : DBState) (name : String)
    (qi bi si : Int) (hWF : WF st) (hname : name ≠ "") :
    (undo_last (add_product st name qi bi si).2).2.products = st.products := by
  obtain ⟨hpb, hpnd, hsb, hsnd, hub, hupw⟩ := hWF
  have hadd : (add_product st name qi bi si).2
      = pushUndo { st with
          products := st.products ++ [⟨st.next_product_id, name, qi, bi, si, 0⟩],
          next_product_id := st.next_product_id + 1 }
        (UndoPayload.addP st.next_product_id) := by
    unfold add_product
    rw [if_neg hname]
  rw [hadd]
  have hlast : (pushUndo { st with
      products := st.products ++ [⟨st.next_product_id, name, qi, bi, si, 0⟩],
      next_product_id := st.next_product_id + 1 }
        (UndoPayload.addP st.next_product_id)).undo.getLast?
      = some ⟨st.next_undo_id, UndoPayload.addP st.next_product_id⟩ :=
    List.getLast?_concat _
  rw [undo_last_of_add_top _ st.next_undo_id st.next_product_id hlast]
  show (st.products ++ ([⟨st.next_product_id, name, qi, bi, si, 0⟩] : List Product)).filter
      (fun p => p.id != st.next_product_id) = st.products
  rw [List.filter_append]
  have hone : ([⟨st.next_product_id, name, qi, bi, si, 0⟩] : List Product).filter
      (fun p => p.id != st.next_product_id) = [] := by simp
  rw [hone, List.append_nil]
  exact products_filter_ne_eq_self st.products st.next_product_id
    (fun p hp => by have := hpb p hp; omega)

/-- Witness for C8: adding Tea to a one-product store and undoing leaves the
products table as it was. -/
theorem C8_witness :
    (WF ⟨[⟨1, "Coffee", 10, 1000, 1500, 0⟩], [], [], 2, 1, 1⟩ ∧
      ("Tea" : String) ≠ "") ∧
    (undo_last (add_product ⟨[⟨1, "Coffee", 10, 1000, 1500, 0⟩], [], [], 2, 1, 1⟩
        ("Tea") 2 500 800).2).2.products = [⟨1, "Coffee", 10, 1000, 1500, 0⟩] :=
  ⟨⟨by decide, by decide⟩,
    C8_add_then_undo_roundtrip ⟨[⟨1, "Coffee", 10, 1000, 1500, 0⟩], [], [], 2, 1, 1⟩
      ("Tea") 2 500 800 (by decide) (by decide)⟩

theorem restoreDeleted_not_occupied (st : DBState) (pid : Nat) (name : String)
    (qty buy sell sold : Int)
    (h : (st.products.any (fun r => r.id == pid)) = false) :
    restoreDeleted st pid name qty buy sell sold
      = { st with products := st.products ++ [⟨pid, name, qty, buy, sell, sold⟩],
                  next_product_id := max st.next_product_id (pid + 1) } := by
  unfold restoreDeleted
  rw [if_neg (by rw [h]; exact Bool.false_ne_true)]

/-- Claim C7: for every DeleteProduct followed immediately by UndoLast, a
Product row exists afterwards with name, quantity-on-hand, buy price, sell
price and sold-quantity identical to the values of the deleted product at
deletion time, and - since an immediate undo can never find the original id
occupied - with the original id: the table is the one from before the
delete, with the row p re-inserted at the end. -/
theorem C7_delete_then_undo_restores (st : DBState) (pid : Nat) (p : Product)
    (hp : productRow st pid = some p) :
    (undo_last (delete_item st pid true).2).2.products
      = st.products.filter (fun r => r.id != pid) ++ [p] := by
  have hpid : p.id = pid := by simpa using List.find?_some hp
  subst hpid
  have hdel : (delete_item st p.id true).2
      = deleteProductRow
          (pushUndo st (UndoPayload.deleteP p.id p.name p.qty p.buy_price
            p.sell_price p.sold_qty)) p.id := by
    unfold delete_item
    rw [hp]
    rfl
  rw [hdel]
  have hlast : (deleteProductRow
      (pushUndo st (UndoPayload.deleteP p.id p.name p.qty p.buy_price
        p.sell_price p.sold_qty)) p.id).undo.getLast?
      = some ⟨st.next_undo_id, UndoPayload.deleteP p.id p.name p.qty
          p.buy_price p.sell_price p.sold_qty⟩ :=
    List.getLast?_concat _
  rw [undo_last_of_delete_top _ st.next_undo_id p.id p.name p.qty p.buy_price
    p.sell_price p.sold_qty hlast]
  have hocc : ((st.products.filter (fun r => r.id != p.id)).any
      (fun r => r.id == p.id)) = false := any_id_filter_ne st.products p.id
  rw [restoreDeleted_not_occupied _ _ _ _ _ _ _ hocc]
  rfl

/-- Witness for C7: deleting Tea from a two-product store and undoing
restores the identical row under its original id 2. -/
theorem C7_witness :
    productRow ⟨[⟨1, "Coffee", 10, 1000, 1500, 0⟩, ⟨2, "Tea", 5, 500, 800, 1⟩],
        [], [], 3, 1, 1⟩ 2 = some ⟨2, "Tea", 5, 500, 800, 1⟩ ∧
    (undo_last (delete_item ⟨[⟨1, "Coffee", 10, 1000, 1500, 0⟩,
        ⟨2, "Tea", 5, 500, 800, 1⟩], [], [], 3, 1, 1⟩ 2 true).2).2.products
      = [⟨1, "Coffee", 10, 1000, 1500, 0⟩, ⟨2, "Tea", 5, 500, 800, 1⟩] :=
  ⟨by decide,
    C7_delete_then_undo_restores ⟨[⟨1, "Coffee", 10, 1000, 1500, 0⟩,
      ⟨2, "Tea", 5, 500, 800, 1⟩], [], [], 3, 1, 1⟩ 2
      ⟨2, "Tea", 5, 500, 800, 1⟩ (by decide)⟩

/-- Claim C9: when UndoLast processes a SELL entry whose product row no
longer exists, the product-quantity restoration is a silent no-op, the
SaleRecord with the saved id is still deleted, the UndoEntry is still
consumed, and the operation reports success rather than an error. -/
theorem C9_undo_sell_product_gone (st : DBState) (uid pid : Nat)
    (q pq ps : Int) (sid : Nat)
    (hlast : st.undo.getLast? = some ⟨uid,
        UndoPayload.sellP pid q (some pq) (some ps) (some sid)⟩)
    (hgone : productRow st pid = none) :
    (undo_last st).1 = UndoOutcome.undone ∧
    (undo_last st).2.products = st.products ∧
    (undo_last st).2.sales = st.sales.filter (fun s => s.id != sid) ∧
    (undo_last st).2.undo = st.undo.dropLast := by
  rw [undo_last_of_sell_top st uid pid q pq ps sid hlast]
  refine ⟨rfl, ?_, rfl, rfl⟩
  show setQtySold pid pq ps st.products = st.products
  exact setQtySold_eq_self pid pq ps st.products (fun r hr hrid =>
    absurd (by simpa using hrid : (r.id == pid) = true)
      (List.find?_eq_none.mp hgone r hr))

/-- Witness for C9: the sold product with id 1 was deleted after the sale;
undoing the sale still removes sales row 4, consumes the entry and reports
success. -/
theorem C9_witness :
    ((⟨[⟨2, "Tea", 5, 500, 800, 0⟩], [⟨4, none, 2, 10, 20, 20⟩],
        [⟨7, UndoPayload.sellP 1 2 (some 9) (some 3) (some 4)⟩],
        3, 5, 8⟩ : DBState).undo.getLast?
      = some ⟨7, UndoPayload.sellP 1 2 (some 9) (some 3) (some 4)⟩ ∧
     productRow ⟨[⟨2, "Tea", 5, 500, 800, 0⟩], [⟨4, none, 2, 10, 20, 20⟩],
        [⟨7, UndoPayload.sellP 1 2 (some 9) (some 3) (some 4)⟩],
        3, 5, 8⟩ 1 = none) ∧
    ((undo_last ⟨[⟨2, "Tea", 5, 500, 800, 0⟩], [⟨4, none, 2, 10, 20, 20⟩],
        [⟨7, UndoPayload.sellP 1 2 (some 9) (some 3) (some 4)⟩],
        3, 5, 8⟩).1 = UndoOutcome.undone ∧
     (undo_last ⟨[⟨2, "Tea", 5, 500, 800, 0⟩], [⟨4, none, 2, 10, 20, 20⟩],
        [⟨7, UndoPayload.sellP 1 2 (some 9) (some 3) (some 4)⟩],
        3, 5, 8⟩).2.products = [⟨2, "Tea", 5, 500, 800, 0⟩] ∧
     (undo_last ⟨[⟨2, "Tea", 5, 500, 800, 0⟩], [⟨4, none, 2, 10, 20, 20⟩],
        [⟨7, UndoPayload.sellP 1 2 (some 9) (some 3) (some 4)⟩],
        3, 5, 8⟩).2.sales
        = ([⟨4, none, 2, 10, 20, 20⟩] : List SaleRecord).filter
            (fun s => s.id != 4) ∧
     (undo_last ⟨[⟨2, "Tea", 5, 500, 800, 0⟩], [⟨4, none, 2, 10, 20, 20⟩],
        [⟨7, UndoPayload.sellP 1 2 (some 9) (some 3) (some 4)⟩],
        3, 5, 8⟩).2.undo = []) :=
  ⟨⟨by decide, by decide⟩,
    C9_undo_sell_product_gone ⟨[⟨2, "Tea", 5, 500, 800, 0⟩],
      [⟨4, none, 2, 10, 20, 20⟩],
      [⟨7, UndoPayload.sellP 1 2 (some 9) (some 3) (some 4)⟩], 3, 5, 8⟩
      7 1 2 9 3 4 (by decide) (by decide)⟩

/-- Counterexample to claim C6: the code claims the fallback deletion of the
most recent SaleRecord matching (productId, quantity) runs when the saved
sales_log id no longer exists.  In this store the SELL undo entry carries
the stale saved id 9 (no such sales row) while row 3 matches (productId 1,
quantity 2); the claim predicts row 3 is removed, but undo_last leaves the
sales table unchanged, because DELETE with an unmatched id succeeds
deleting zero rows and the fallback is only reachable from the except
handler. -/
theorem C6_counterexample :
    (undo_last ⟨[⟨1, "A", 5, 10, 20, 1⟩], [⟨3, some 1, 2, 10, 20, 20⟩],
        [⟨1, UndoPayload.sellP 1 2 (some 7) (some 0) (some 9)⟩],
        2, 4, 2⟩).2.sales = [⟨3, some 1, 2, 10, 20, 20⟩] := by decide

/-- Claim C6 as amended: undo of a SELL deletes exactly the sales_log rows
bearing the saved id; when no row with that id exists the deletion affects
zero rows and no fallback runs (the match-based fallback is reachable only
from the except handler of a failed DELETE statement), so no sales row is
removed in that case. -/
theorem C6_amended_undo_sell_deletes_saved_id (st : DBState) (uid pid : Nat)
    (q : Int) (pq ps : Option Int) (sid : Nat)
    (hlast : st.undo.getLast? = some ⟨uid, UndoPayload.sellP pid q pq ps (some sid)⟩) :
    (undo_last st).2.sales = st.sales.filter (fun s => s.id != sid) ∧
    ((∀ s ∈ st.sales, s.id ≠ sid) → (undo_last st).2.sales = st.sales) := by
  have hsales : (undo_last st).2.sales = st.sales.filter (fun s => s.id != sid) := by
    unfold undo_last
    rw [hlast]
    rcases pq with _ | pq0 <;> rcases ps with _ | ps0 <;> rfl
  exact ⟨hsales, fun h => by rw [hsales]; exact sales_filter_ne_eq_self st.sales sid h⟩

/-- Witness for C6 as amended: with saved id 9 absent from the sales table,
the undo leaves the sales table unchanged. -/
theorem C6_witness :
    ((⟨[⟨1, "A", 5, 10, 20, 1⟩], [⟨3, some 1, 2, 10, 20, 20⟩],
        [⟨1, UndoPayload.sellP 1 2 (some 7) (some 0) (some 9)⟩],
        2, 4, 2⟩ : DBState).undo.getLast?
      = some ⟨1, UndoPayload.sellP 1 2 (some 7) (some 0) (some 9)⟩) ∧
    ((undo_last ⟨[⟨1, "A", 5, 10, 20, 1⟩], [⟨3, some 1, 2, 10, 20, 20⟩],
        [⟨1, UndoPayload.sellP 1 2 (some 7) (some 0) (some 9)⟩],
        2, 4, 2⟩).2.sales
      = ([⟨3, some 1, 2, 10, 20, 20⟩] : List SaleRecord).filter
          (fun s => s.id != 9) ∧
     ((∀ s ∈ ([⟨3, some 1, 2, 10, 20, 20⟩] : List SaleRecord), s.id ≠ 9) →
      (undo_last ⟨[⟨1, "A", 5, 10, 20, 1⟩], [⟨3, some 1, 2, 10, 20, 20⟩],
          [⟨1, UndoPayload.sellP 1 2 (some 7) (some 0) (some 9)⟩],
          2, 4, 2⟩).2.sales = [⟨3, some 1, 2, 10, 20, 20⟩])) :=
  ⟨by decide,
    C6_amended_undo_sell_deletes_saved_id ⟨[⟨1, "A", 5, 10, 20, 1⟩],
      [⟨3, some 1, 2, 10, 20, 20⟩],
      [⟨1, UndoPayload.sellP 1 2 (some 7) (some 0) (some 9)⟩], 2, 4, 2⟩
      1 1 2 (some 7) (some 0) 9 (by decide)⟩

/-- Counterexample to claim C5: the claim says SellProduct on an id absent
from the store fails with a NotFoundError reported to the caller; the code
performs no mutation but the not-found branch (lines 594-595) is a bare
return that reports nothing - unlike every other failure branch it raises
no messagebox - so the failure is silent. -/
theorem C5_counterexample :
    sell_item ⟨[⟨1, "A", 3, 10, 20, 0⟩], [], [], 2, 1, 1⟩ 7 1 true
      = (SellOutcome.notFound, ⟨[⟨1, "A", 3, 10, 20, 0⟩], [], [], 2, 1, 1⟩) ∧
    sellReportsToCaller SellOutcome.notFound = false := by
  exact ⟨by decide, rfl⟩

/-- Claim C5 as amended: SellProduct on a productId that does not exist in
the store performs no mutation and returns silently, without reporting any
error to the caller. -/
theorem C5_amended_notfound_silent (st : DBState) (pid : Nat) (q : Int)
    (c : Bool) (h : productRow st pid = none) :
    sell_item st pid q c = (SellOutcome.notFound, st) ∧
    sellReportsToCaller SellOutcome.notFound = false := by
  refine ⟨?_, rfl⟩
  unfold sell_item
  rw [h]

/-- Witness for C5 as amended: selling id 7 in a store that only holds id 1
is a silent no-op. -/
theorem C5_witness :
    productRow ⟨[⟨1, "A", 3, 10, 20, 0⟩], [], [], 2, 1, 1⟩ 7 = none ∧
    (sell_item ⟨[⟨1, "A", 3, 10, 20, 0⟩], [], [], 2, 1, 1⟩ 7 2 false
        = (SellOutcome.notFound, ⟨[⟨1, "A", 3, 10, 20, 0⟩], [], [], 2, 1, 1⟩) ∧
     sellReportsToCaller SellOutcome.notFound = false) :=
  ⟨by decide,
    C5_amended_notfound_silent ⟨[⟨1, "A", 3, 10, 20, 0⟩], [], [], 2, 1, 1⟩
      7 2 false (by decide)⟩

/-- Claim C10: manual deletion of a SaleRecord from the sales history
removes only that one sales_log row and leaves the undo stack and all
Product rows unchanged; in particular it appends no UndoEntry (the undo
table and its sequence are untouched), so it can never be reversed by
UndoLast. -/
theorem C10_delete_sale_record_frame (st : DBState) (sid : Nat)
    (s : SaleRecord) (hWF : WF st) (hs : s ∈ st.sales) (hsid : s.id = sid) :
    (delete_sales_record st sid true).products = st.products ∧
    (delete_sales_record st sid true).undo = st.undo ∧
    (delete_sales_record st sid true).next_undo_id = st.next_undo_id ∧
    (delete_sales_record st sid true).sales = st.sales.erase s := by
  obtain ⟨hpb, hpnd, hsb, hsnd, hub, hupw⟩ := hWF
  refine ⟨rfl, rfl, rfl, ?_⟩
  show st.sales.filter (fun r => r.id != sid) = st.sales.erase s
  rw [← hsid]
  exact sales_filter_ne_eq_erase st.sales hsnd s hs

/-- Witness for C10: deleting sales row 4 from a two-row history removes
exactly it and touches neither products nor the undo stack. -/
theorem C10_witness :
    (WF ⟨[⟨1, "A", 3, 10, 20, 2⟩], [⟨4, some 1, 1, 10, 20, 10⟩,
        ⟨5, some 1, 1, 10, 20, 10⟩],
        [⟨2, UndoPayload.sellP 1 1 (some 3) (some 1) (some 4)⟩], 2, 6, 3⟩ ∧
      (⟨4, some 1, 1, 10, 20, 10⟩ : SaleRecord) ∈
        ([⟨4, some 1, 1, 10, 20, 10⟩, ⟨5, some 1, 1, 10, 20, 10⟩] :
          List SaleRecord) ∧
      (⟨4, some 1, 1, 10, 20, 10⟩ : SaleRecord).id = 4) ∧
    ((delete_sales_record ⟨[⟨1, "A", 3, 10, 20, 2⟩],
        [⟨4, some 1, 1, 10, 20, 10⟩, ⟨5, some 1, 1, 10, 20, 10⟩],
        [⟨2, UndoPayload.sellP 1 1 (some 3) (some 1) (some 4)⟩],
        2, 6, 3⟩ 4 true).products = [⟨1, "A", 3, 10, 20, 2⟩] ∧
     (delete_sales_record ⟨[⟨1, "A", 3, 10, 20, 2⟩],
        [⟨4, some 1, 1, 10, 20, 10⟩, ⟨5, some 1, 1, 10, 20, 10⟩],
        [⟨2, UndoPayload.sellP 1 1 (some 3) (some 1) (some 4)⟩],
        2, 6, 3⟩ 4 true).undo
        = [⟨2, UndoPayload.sellP 1 1 (some 3) (some 1) (some 4)⟩] ∧
     (delete_sales_record ⟨[⟨1, "A", 3, 10, 20, 2⟩],
        [⟨4, some 1, 1, 10, 20, 10⟩, ⟨5, some 1, 1, 10, 20, 10⟩],
        [⟨2, UndoPayload.sellP 1 1 (some 3) (some 1) (some 4)⟩],
        2, 6, 3⟩ 4 true).next_undo_id = 3 ∧
     (delete_sales_record ⟨[⟨1, "A", 3, 10, 20, 2⟩],
        [⟨4, some 1, 1, 10, 20, 10⟩, ⟨5, some 1, 1, 10, 20, 10⟩],
        [⟨2, UndoPayload.sellP 1 1 (some 3) (some 1) (some 4)⟩],
        2, 6, 3⟩ 4 true).sales
        = ([⟨4, some 1, 1, 10, 20, 10⟩, ⟨5, some 1, 1, 10, 20, 10⟩] :
            List SaleRecord).erase ⟨4, some 1, 1, 10, 20, 10⟩) :=
  ⟨⟨by decide, by decide, by decide⟩,
    C10_delete_sale_record_frame ⟨[⟨1, "A", 3, 10, 20, 2⟩],
      [⟨4, some 1, 1, 10, 20, 10⟩, ⟨5, some 1, 1, 10, 20, 10⟩],
      [⟨2, UndoPayload.sellP 1 1 (some 3) (some 1) (some 4)⟩], 2, 6, 3⟩
      4 ⟨4, some 1, 1, 10, 20, 10⟩ (by decide) (by decide) (by decide)⟩

theorem sell_item_products_cases (st : DBState) (pid : Nat) (q : Int)
    (c : Bool) :
    (sell_item st pid q c).2.products = st.products ∨
    (∃ p eff, productRow st pid = some p ∧ 0 < eff ∧ eff ≤ p.qty ∧
      (sell_item st pid q c).2.products
        = setQtySold pid (p.qty - eff) (p.sold_qty + eff) st.products) := by
  rcases hfp : productRow st pid with _ | p
  · left
    simp only [sell_item, hfp]
  · by_cases h0 : p.qty ≤ 0
    · left
      simp only [sell_item, hfp, if_pos h0]
    · have hq1 : 1 ≤ (if q < 1 then 1 else q) := by split <;> omega
      by_cases hcap : p.qty < (if q < 1 then 1 else q)
      · cases c with
        | false =>
          left
          simp only [sell_item, hfp, if_neg h0, if_pos hcap,
            Bool.false_eq_true, if_false]
        | true =>
          right
          refine ⟨p, p.qty, rfl, by omega, le_refl _, ?_⟩
          simp only [sell_item, hfp, if_neg h0, if_pos hcap, if_pos rfl]
          rfl
      · right
        refine ⟨p, (if q < 1 then 1 else q), rfl, by omega, by omega, ?_⟩
        simp only [sell_item, hfp, if_neg h0, if_neg hcap]
        rfl

/-- Claim C3: for every SellProduct call the resulting quantity-on-hand is
never negative: zero stock aborts with no mutation, and - under the
confirmation of the caller - a request above the available stock is capped to
it, so non-negativity of every quantity is preserved by the operation. -/
theorem C3_sell_keeps_qty_nonneg (st : DBState) (pid : Nat) (q : Int)
    (c : Bool) (hnn : ∀ r ∈ st.products, 0 ≤ r.qty) :
    (∀ r ∈ (sell_item st pid q c).2.products, 0 ≤ r.qty) ∧
    (∀ p, productRow st pid = some p → p.qty = 0 →
      sell_item st pid q c = (SellOutcome.outOfStock, st)) ∧
    (∀ p, productRow st pid = some p → 0 < p.qty → p.qty < q → c = true →
      (sell_item st pid q c).1 = SellOutcome.sold p.qty) := by
  refine ⟨?_, ?_, ?_⟩
  · intro r hr
    rcases sell_item_products_cases st pid q c with h | ⟨p, eff, hfp, he1, he2, h⟩
    · rw [h] at hr
      exact hnn r hr
    · rw [h] at hr
      rcases qty_of_mem_setQtySold pid (p.qty - eff) (p.sold_qty + eff)
          st.products r hr with h2 | h2
      · omega
      · exact hnn r h2
  · intro p hfp h0
    simp only [sell_item, hfp, if_pos (by omega : p.qty ≤ 0)]
  · intro p hfp hpos hlt hc
    subst hc
    have hcap : p.qty < (if q < 1 then 1 else q) := by split <;> omega
    simp only [sell_item, hfp, if_neg (by omega : ¬ p.qty ≤ 0), if_pos hcap,
      if_pos rfl]
    rfl

/-- Witness for C3: selling 7 of a stock of 4 with confirmation caps to 4
and leaves no negative quantity; a zero-stock row aborts the sale. -/
theorem C3_witness :
    (∀ r ∈ ([⟨1, "A", 4, 10, 20, 0⟩, ⟨2, "B", 0, 5, 9, 3⟩] : List Product),
        0 ≤ r.qty) ∧
    ((∀ r ∈ (sell_item ⟨[⟨1, "A", 4, 10, 20, 0⟩, ⟨2, "B", 0, 5, 9, 3⟩],
        [], [], 3, 1, 1⟩ 1 7 true).2.products, 0 ≤ r.qty) ∧
     (∀ p, productRow ⟨[⟨1, "A", 4, 10, 20, 0⟩, ⟨2, "B", 0, 5, 9, 3⟩],
        [], [], 3, 1, 1⟩ 1 = some p → p.qty = 0 →
        sell_item ⟨[⟨1, "A", 4, 10, 20, 0⟩, ⟨2, "B", 0, 5, 9, 3⟩],
          [], [], 3, 1, 1⟩ 1 7 true
          = (SellOutcome.outOfStock, ⟨[⟨1, "A", 4, 10, 20, 0⟩,
              ⟨2, "B", 0, 5, 9, 3⟩], [], [], 3, 1, 1⟩)) ∧
     (∀ p, productRow ⟨[⟨1, "A", 4, 10, 20, 0⟩, ⟨2, "B", 0, 5, 9, 3⟩],
        [], [], 3, 1, 1⟩ 1 = some p → 0 < p.qty → p.qty < 7 → true = true →
        (sell_item ⟨[⟨1, "A", 4, 10, 20, 0⟩, ⟨2, "B", 0, 5, 9, 3⟩],
          [], [], 3, 1, 1⟩ 1 7 true).1 = SellOutcome.sold p.qty)) :=
  ⟨by decide,
    C3_sell_keeps_qty_nonneg ⟨[⟨1, "A", 4, 10, 20, 0⟩, ⟨2, "B", 0, 5, 9, 3⟩],
      [], [], 3, 1, 1⟩ 1 7 true (by decide)⟩

/-- Claim C4: after AddProduct of Tea with quantity 2, buy price 500, sell
price 800, followed by SellProduct of 5 with the caller confirming the cap
to 2, the product row shows quantity-on-hand 0 and sold-quantity 2 (the
display refresh may garbage-collect the zero-quantity row afterwards, but
that belongs to the excluded display path, not to the transaction of the
sell command). -/
theorem C4_tea_capped_sale :
    productRow (sell_item (add_product ⟨[], [], [], 1, 1, 1⟩ ("Tea") 2 500
        800).2 1 5 true).2 1 = some ⟨1, "Tea", 0, 500, 800, 2⟩ := by decide

/-- Counterexample to claim C2: the pop of the UndoEntry and its
compensation are not one transaction.  _pop_undo_db commits the deletion of
the undo row on its own connection before the compensation starts; when the
compensation then fails, the resulting state has the SELL undo entry
consumed while the product row still shows the post-sale quantities and
the sales row is still present - the state changed, yet the compensation
did not happen, contradicting succeed-or-fail-together. -/
theorem C2_counterexample :
    undo_last_compensation_fails ⟨[⟨1, "A", 5, 10, 20, 2⟩],
        [⟨1, some 1, 2, 10, 20, 20⟩],
        [⟨1, UndoPayload.sellP 1 2 (some 7) (some 0) (some 1)⟩], 2, 2, 2⟩
      ≠ ⟨[⟨1, "A", 5, 10, 20, 2⟩], [⟨1, some 1, 2, 10, 20, 20⟩],
        [⟨1, UndoPayload.sellP 1 2 (some 7) (some 0) (some 1)⟩], 2, 2, 2⟩ ∧
    (undo_last_compensation_fails ⟨[⟨1, "A", 5, 10, 20, 2⟩],
        [⟨1, some 1, 2, 10, 20, 20⟩],
        [⟨1, UndoPayload.sellP 1 2 (some 7) (some 0) (some 1)⟩],
        2, 2, 2⟩).undo = [] ∧
    (undo_last_compensation_fails ⟨[⟨1, "A", 5, 10, 20, 2⟩],
        [⟨1, some 1, 2, 10, 20, 20⟩],
        [⟨1, UndoPayload.sellP 1 2 (some 7) (some 0) (some 1)⟩],
        2, 2, 2⟩).products = [⟨1, "A", 5, 10, 20, 2⟩] ∧
    (undo_last_compensation_fails ⟨[⟨1, "A", 5, 10, 20, 2⟩],
        [⟨1, some 1, 2, 10, 20, 20⟩],
        [⟨1, UndoPayload.sellP 1 2 (some 7) (some 0) (some 1)⟩],
        2, 2, 2⟩).sales = [⟨1, some 1, 2, 10, 20, 20⟩] := by decide

/-- Claim C2 as amended: each command runs its store mutation and its
undo-stack append in separate transactions (within SellProduct the product
update and the SaleRecord insert do share one transaction), and UndoLast
pops the UndoEntry in its own transaction before compensating in further
ones; a failure between the steps leaves the earlier commits in place: a
failed compensation leaves the UndoEntry consumed with products and sales
unchanged, and a failed undo append after AddProduct leaves the inserted
product with no undo entry while the command still reports success. -/
theorem C2_amended_separate_transactions (st : DBState) (name : String)
    (qi bi si : Int) (hne : st.undo ≠ []) (hname : name ≠ "") :
    (undo_last_compensation_fails st).undo = st.undo.dropLast ∧
    (undo_last_compensation_fails st).products = st.products ∧
    (undo_last_compensation_fails st).sales = st.sales ∧
    (add_product_push_undo_fails st name qi bi si).undo = st.undo ∧
    (add_product_push_undo_fails st name qi bi si).products
      = st.products ++ [⟨st.next_product_id, name, qi, bi, si, 0⟩] := by
  obtain ⟨e, he⟩ := Option.isSome_iff_exists.mp (List.getLast?_isSome.mpr hne)
  have hcomp : undo_last_compensation_fails st
      = { st with undo := st.undo.dropLast } := by
    unfold undo_last_compensation_fails
    rw [he]
  have hpush : add_product_push_undo_fails st name qi bi si
      = { st with
          products := st.products ++ [⟨st.next_product_id, name, qi, bi, si, 0⟩],
          next_product_id := st.next_product_id + 1 } := by
    unfold add_product_push_undo_fails
    rw [if_neg hname]
  rw [hcomp, hpush]
  exact ⟨rfl, rfl, rfl, rfl, rfl⟩

/-- Witness for C2 as amended: one SELL entry on the stack; the failed
compensation consumes it and changes nothing else, and a failed undo push
after adding Tea leaves Tea inserted with the stack untouched. -/
theorem C2_witness :
    ((⟨[⟨1, "A", 5, 10, 20, 2⟩], [⟨1, some 1, 2, 10, 20, 20⟩],
        [⟨1, UndoPayload.sellP 1 2 (some 7) (some 0) (some 1)⟩],
        2, 2, 2⟩ : DBState).undo ≠ [] ∧ ("Tea" : String) ≠ "") ∧
    ((undo_last_compensation_fails ⟨[⟨1, "A", 5, 10, 20, 2⟩],
        [⟨1, some 1, 2, 10, 20, 20⟩],
        [⟨1, UndoPayload.sellP 1 2 (some 7) (some 0) (some 1)⟩],
        2, 2, 2⟩).undo
        = ([⟨1, UndoPayload.sellP 1 2 (some 7) (some 0) (some 1)⟩] :
            List UndoEntry).dropLast ∧
     (undo_last_compensation_fails ⟨[⟨1, "A", 5, 10, 20, 2⟩],
        [⟨1, some 1, 2, 10, 20, 20⟩],
        [⟨1, UndoPayload.sellP 1 2 (some 7) (some 0) (some 1)⟩],
        2, 2, 2⟩).products = [⟨1, "A", 5, 10, 20, 2⟩] ∧
     (undo_last_compensation_fails ⟨[⟨1, "A", 5, 10, 20, 2⟩],
        [⟨1, some 1, 2, 10, 20, 20⟩],
        [⟨1, UndoPayload.sellP 1 2 (some 7) (some 0) (some 1)⟩],
        2, 2, 2⟩).sales = [⟨1, some 1, 2, 10, 20, 20⟩] ∧
     (add_product_push_undo_fails ⟨[⟨1, "A", 5, 10, 20, 2⟩],
        [⟨1, some 1, 2, 10, 20, 20⟩],
        [⟨1, UndoPayload.sellP 1 2 (some 7) (some 0) (some 1)⟩],
        2, 2, 2⟩ ("Tea") 3 500 800).undo
        = [⟨1, UndoPayload.sellP 1 2 (some 7) (some 0) (some 1)⟩] ∧
     (add_product_push_undo_fails ⟨[⟨1, "A", 5, 10, 20, 2⟩],
        [⟨1, some 1, 2, 10, 20, 20⟩],
        [⟨1, UndoPayload.sellP 1 2 (some 7) (some 0) (some 1)⟩],
        2, 2, 2⟩ ("Tea") 3 500 800).products
        = [⟨1, "A", 5, 10, 20, 2⟩] ++ [⟨2, "Tea", 3, 500, 800, 0⟩]) :=
  ⟨⟨by decide, by decide⟩,
    C2_amended_separate_transactions ⟨[⟨1, "A", 5, 10, 20, 2⟩],
      [⟨1, some 1, 2, 10, 20, 20⟩],
      [⟨1, UndoPayload.sellP 1 2 (some 7) (some 0) (some 1)⟩], 2, 2, 2⟩
      ("Tea") 3 500 800 (by decide) (by decide)⟩

end Cafenet
